import Mathlib

/-!
Shallow embedding of the risk-scoring pipeline of `safe-rx-insights`:
the CSV record parser (`src/utils/csvProcessor.ts`) and the two-stage
risk engine (`src/utils/riskEngine.ts`), together with theorems settling
the frozen claims about them.

Modelling conventions:
* JavaScript numbers are modelled as exact rationals (`ℚ`) or integers
  (`Int`); IEEE-754 rounding is not modelled.  Division by zero, which the
  source hits in the early-refill rule, is modelled explicitly with the
  IEEE outcome of each comparison (see `earlyRefill`).
* `Math.random()` is modelled as an explicit argument `rand` (the value the
  ambient global generator happened to return, in `[0,1)`), and
  `new Date().getFullYear()` as an explicit argument `curYear`.
* ECMAScript `Date` parsing of date-only ISO strings (`YYYY-MM-DD`,
  interpreted at UTC midnight) is modelled by `jsDateDays`, days since the
  Unix epoch; out-of-range components give an invalid date (`none`,
  standing for `NaN`).  Since both timestamps are whole-day multiples,
  `Math.floor((refill - prescription) / 86400000)` is exactly the
  difference of the two day numbers.
* `parseInt` / `parseFloat` are modelled on plain decimal literals
  (optional sign, digits, optional fraction); the hexadecimal and exponent
  forms never produced by this data set are not modelled.
* TypeScript string values are Lean `String`s; optional fields (`?` in the
  interface) are `Option`s.  The parser builds a `RawPatient` in which
  every field is an `Option`, mirroring `Partial<PatientRecord>`: the
  unchecked cast `patient as PatientRecord` in the source does not fill
  missing fields, so absence (`none`) models the JavaScript `undefined`.
-/

inductive RiskLevel where
  | Low
  | Medium
  | High
deriving DecidableEq

/-- The `PatientRecord` interface of `src/types/patient.ts`. -/
structure PatientRecord where
  Patient_ID : String
  Full_Name : String
  DOB : String
  Gender : String
  Prescriber_NPI : String
  Prescriber_Name : String
  Pharmacy_Name : String
  Drug_Name : String
  Drug_Code : String
  Prescription_Date : String
  Dispense_Date : String
  Refill_Date : Option String
  Days_Supplied : Int
  Dosage_mg : ℚ
  Quantity : Int
  Refill_Number : Int
  Payment_Type : String
  Pickup_Method : String
  State_PDMP_Status : String
  Overlapping_Prescriptions : Bool
  Adherence_Score : Option ℚ
  Notes : Option String
  Risk_Level : RiskLevel
  Risk_Score : ℚ
  Flagged_Warnings : List String
  AI_Confidence : ℚ
deriving DecidableEq

/-- A record with every string empty, every number `0`, every optional
field absent — the JavaScript zero values used to build concrete test
records for the theorems below. -/
def defaultPatient : PatientRecord where
  Patient_ID := ""
  Full_Name := ""
  DOB := ""
  Gender := ""
  Prescriber_NPI := ""
  Prescriber_Name := ""
  Pharmacy_Name := ""
  Drug_Name := ""
  Drug_Code := ""
  Prescription_Date := ""
  Dispense_Date := ""
  Refill_Date := none
  Days_Supplied := 0
  Dosage_mg := 0
  Quantity := 0
  Refill_Number := 0
  Payment_Type := ""
  Pickup_Method := ""
  State_PDMP_Status := ""
  Overlapping_Prescriptions := false
  Adherence_Score := none
  Notes := none
  Risk_Level := RiskLevel.Low
  Risk_Score := 0
  Flagged_Warnings := []
  AI_Confidence := 0

/-! ### Date model

`new Date("YYYY-MM-DD")` parses a date-only ISO string as UTC midnight;
anything else the data set contains (empty or malformed strings) is an
invalid date whose `getTime()` is `NaN`, modelled by `none`. -/

def isDigit (c : Char) : Bool := '0' ≤ c ∧ c ≤ '9'

def digitVal (c : Char) : Nat := c.toNat - '0'.toNat

def digitsToNat (l : List Char) : Nat := l.foldl (fun n c => n * 10 + digitVal c) 0

def isLeapYear (y : Int) : Bool := y % 4 = 0 ∧ (y % 100 ≠ 0 ∨ y % 400 = 0)

def daysInMonth (y m : Int) : Int :=
  if m = 2 then (if isLeapYear y then 29 else 28)
  else if m = 4 ∨ m = 6 ∨ m = 9 ∨ m = 11 then 30
  else 31

/-- Days since 1970-01-01 of the civil date `y-m-d` (proleptic Gregorian);
the standard era-based algorithm, using floor division. -/
def daysFromCivil (y m d : Int) : Int :=
  let yy := if m ≤ 2 then y - 1 else y
  let era := yy / 400
  let yoe := yy - era * 400
  let mp := (m + 9) % 12
  let doy := (153 * mp + 2) / 5 + d - 1
  let doe := yoe * 365 + yoe / 4 - yoe / 100 + doy
  era * 146097 + doe - 719468

/-- `new Date(s).getTime() / 86400000` for a date-only ISO string `s`:
`some` epoch-day number for a valid `YYYY-MM-DD`, `none` (`NaN`) otherwise. -/
def jsDateDays (s : String) : Option Int :=
  match s.data with
  | [y1, y2, y3, y4, '-', m1, m2, '-', d1, d2] =>
    if isDigit y1 ∧ isDigit y2 ∧ isDigit y3 ∧ isDigit y4 ∧
       isDigit m1 ∧ isDigit m2 ∧ isDigit d1 ∧ isDigit d2 then
      let y : Int := digitsToNat [y1, y2, y3, y4]
      let m : Int := digitsToNat [m1, m2]
      let d : Int := digitsToNat [d1, d2]
      if 1 ≤ m ∧ m ≤ 12 ∧ 1 ≤ d ∧ d ≤ daysInMonth y m then
        some (daysFromCivil y m d)
      else none
    else none
  | _ => none

/-- `new Date(s).getFullYear()` for a date-only ISO string: the year
component of a valid `YYYY-MM-DD`, `none` (`NaN`) otherwise. -/
def jsDateYear (s : String) : Option Int :=
  match s.data with
  | [y1, y2, y3, y4, '-', m1, m2, '-', d1, d2] =>
    if isDigit y1 ∧ isDigit y2 ∧ isDigit y3 ∧ isDigit y4 ∧
       isDigit m1 ∧ isDigit m2 ∧ isDigit d1 ∧ isDigit d2 then
      let y : Int := digitsToNat [y1, y2, y3, y4]
      let m : Int := digitsToNat [m1, m2]
      let d : Int := digitsToNat [d1, d2]
      if 1 ≤ m ∧ m ≤ 12 ∧ 1 ≤ d ∧ d ≤ daysInMonth y m then some y else none
    else none
  | _ => none

/-! ### Risk engine, stage (a): weighted score + confidence
(`simulateAdvancedAIRiskScoring`, `src/utils/riskEngine.ts` lines 4-143).
Each `if`/`else if` chain of the source is one helper returning its score
increment (and confidence increment where the source adjusts confidence)
together with the factor labels it pushes; the assembly function adds the
increments and concatenates the labels in source order. -/

structure AIResult where
  score : ℚ
  confidence : ℚ
  factors : List String
deriving DecidableEq

/-- Lines 13-22: dosage bands at 120 / 80 / 50, highest band only. -/
def dosageBlock (d : ℚ) : ℚ × List String :=
  if d > 120 then (2/5, ["Very High Dosage"])
  else if d > 80 then (3/10, ["High Dosage"])
  else if d > 50 then (1/5, ["Moderate Dosage"])
  else (0, [])

/-- Lines 25-27: `min(quantity / 180, 1) * 0.25`, label above 120. -/
def quantityBlock (q : Int) : ℚ × List String :=
  (min ((q : ℚ) / 180) 1 * (1/4), if q > 120 then ["High Quantity"] else [])

/-- Lines 30-35: deviation of `days_supplied` from 30, relative, above 1/2. -/
def supplyBlock (ds : Int) : ℚ × List String :=
  if |(ds : ℚ) - 30| / 30 > 1/2 then (3/20, ["Unusual Supply Duration"]) else (0, [])

/-- Lines 38-44: payment type; the middle component is the confidence
increment (cash payments lower confidence by 0.05). -/
def paymentBlock (pt : String) : ℚ × ℚ × List String :=
  if pt = "Cash" then (1/5, -(1/20), ["Cash Payment"])
  else if pt = "Medicaid" then (1/20, 0, [])
  else (0, 0, [])

/-- Lines 47-53: refill count bands at 5 / 3. -/
def refillCountBlock (n : Int) : ℚ × List String :=
  if n > 5 then (3/20, ["Excessive Refills"])
  else if n > 3 then (2/25, ["Multiple Refills"])
  else (0, [])

/-- Lines 62-70: `refillRatio = daysBetween / daysSupplied` compared with
0.7 and 0.8.  When `daysSupplied = 0` the source divides by zero: the IEEE
quotient is `-∞` for negative `daysBetween` (so `ratio < 0.7` holds and the
rule fires), `+∞` for positive and `NaN` for zero `daysBetween` (neither
comparison holds). -/
def earlyRefill (daysBetween : Int) (daysSupplied : Int) : ℚ × List String :=
  if daysSupplied = 0 then
    if daysBetween < 0 then (1/4, ["Early Refill"]) else (0, [])
  else
    if (daysBetween : ℚ) / (daysSupplied : ℚ) < 7/10 then (1/4, ["Early Refill"])
    else if (daysBetween : ℚ) / (daysSupplied : ℚ) < 4/5 then (3/20, ["Slightly Early Refill"])
    else (0, [])

/-- Lines 56-71: the early-refill rule runs only when both date strings are
truthy (present and non-empty); an unparsable date makes `daysBetween`
`NaN`, and then neither ratio comparison holds. -/
def earlyRefillBlock (rd : Option String) (pd : String) (ds : Int) : ℚ × List String :=
  match rd with
  | none => (0, [])
  | some r =>
    if r = "" ∨ pd = "" then (0, [])
    else
      match jsDateDays pd, jsDateDays r with
      | some pdd, some rdd => earlyRefill (rdd - pdd) ds
      | _, _ => (0, [])

/-- Lines 74-78: overlapping prescriptions raise confidence by 0.1. -/
def overlapBlock (b : Bool) : ℚ × ℚ × List String :=
  if b then (1/4, 1/10, ["Overlapping Prescriptions"]) else (0, 0, [])

/-- Lines 81-88: PDMP status; `Not Available` lowers confidence by 0.05. -/
def pdmpBlock (s : String) : ℚ × ℚ × List String :=
  if s = "Unmatched" then (1/5, 0, ["PDMP Unmatched"])
  else if s = "Not Available" then (1/10, -(1/20), ["PDMP Unavailable"])
  else (0, 0, [])

/-- Lines 91-103: adherence bands at 50 / 70 / 95, only when present. -/
def adherenceBlock (a : Option ℚ) : ℚ × List String :=
  match a with
  | none => (0, [])
  | some v =>
    if v < 50 then (3/20, ["Very Poor Adherence"])
    else if v < 70 then (1/10, ["Poor Adherence"])
    else if v > 95 then (1/20, ["Perfect Adherence"])
    else (0, [])

/-- Lines 106-112: pickup method. -/
def pickupBlock (pm : String) : ℚ × List String :=
  if pm = "Third-party" then (1/10, ["Third-party Pickup"])
  else if pm = "Delivery" then (1/20, ["Delivery Method"])
  else (0, [])

/-- Lines 115-119: membership in the fixed high-risk drug list. -/
def drugBlock (name : String) : ℚ × List String :=
  if name = "Oxycodone" ∨ name = "Fentanyl" ∨ name = "Morphine" ∨ name = "Hydrocodone" then
    (1/10, ["High-Risk Opioid"])
  else (0, [])

/-- Lines 122-128: age derived from the DOB year and the current year;
an empty DOB is falsy and skips the rule, an unparsable one gives `NaN`
comparisons that never hold. -/
def ageBlock (dob : String) (curYear : Int) : ℚ × List String :=
  if dob = "" then (0, [])
  else
    match jsDateYear dob with
    | none => (0, [])
    | some y =>
      if curYear - y < 25 ∨ curYear - y > 75 then (1/20, ["Age Risk Factor"]) else (0, [])

/-- `simulateAdvancedAIRiskScoring` (lines 4-143).  `rand` is the value
returned by the ambient `Math.random()` call and `curYear` the current
year; score starts at 0 and confidence at 0.8, the perturbation is
`(rand - 0.5) * 0.08`, factor-count adjustments are applied to confidence,
and both results are clamped (lines 139-140). -/
def simulateAdvancedAIRiskScoring (rand : ℚ) (curYear : Int) (p : PatientRecord) : AIResult :=
  let dosage := dosageBlock p.Dosage_mg
  let quantity := quantityBlock p.Quantity
  let supply := supplyBlock p.Days_Supplied
  let payment := paymentBlock p.Payment_Type
  let refills := refillCountBlock p.Refill_Number
  let early := earlyRefillBlock p.Refill_Date p.Prescription_Date p.Days_Supplied
  let overlap := overlapBlock p.Overlapping_Prescriptions
  let pdmp := pdmpBlock p.State_PDMP_Status
  let adherence := adherenceBlock p.Adherence_Score
  let pickup := pickupBlock p.Pickup_Method
  let drug := drugBlock p.Drug_Name
  let age := ageBlock p.DOB curYear
  let factors := dosage.2 ++ quantity.2 ++ supply.2 ++ payment.2.2 ++ refills.2 ++
    early.2 ++ overlap.2.2 ++ pdmp.2.2 ++ adherence.2 ++ pickup.2 ++ drug.2 ++ age.2
  let mlVariation := (rand - 1/2) * (2/25)
  let score := 0 + dosage.1 + quantity.1 + supply.1 + payment.1 + refills.1 +
    early.1 + overlap.1 + pdmp.1 + adherence.1 + pickup.1 + drug.1 + age.1 + mlVariation
  let confidence := 4/5 + payment.2.1 + overlap.2.1 + pdmp.2.1
  let confidence := if factors.length > 5 then confidence + 1/10 else confidence
  let confidence := if factors.length < 2 then confidence - 1/10 else confidence
  { score := max 0 (min 1 score)
    confidence := max (1/2) (min 1 confidence)
    factors := factors }

/-! ### Risk engine, stage (b): warning flags
(`applyEnhancedBusinessRules`, lines 145-235). -/

/-- Lines 149-159: early-refill warnings, `daysBetween` against
`days_supplied * 0.6` and `* 0.75`; runs only when both date strings are
truthy, and unparsable dates give `NaN` comparisons that never hold. -/
def warnEarlyRefill (rd : Option String) (pd : String) (ds : Int) : List String :=
  match rd with
  | none => []
  | some r =>
    if r = "" ∨ pd = "" then []
    else
      match jsDateDays pd, jsDateDays r with
      | some pdd, some rdd =>
        if ((rdd - pdd : Int) : ℚ) < (ds : ℚ) * (3/5) then ["Very Early Refill Attempt"]
        else if ((rdd - pdd : Int) : ℚ) < (ds : ℚ) * (3/4) then ["Early Refill Attempt"]
        else []
      | _, _ => []

/-- Lines 162-168: dosage warning bands at 120 / 90 / 60. -/
def warnDosage (d : ℚ) : List String :=
  if d > 120 then ["Extremely High Dosage"]
  else if d > 90 then ["High Dosage Prescription"]
  else if d > 60 then ["Elevated Dosage"]
  else []

/-- Lines 171-175: quantity warning bands at 180 / 120. -/
def warnQuantity (q : Int) : List String :=
  if q > 180 then ["Excessive Quantity Dispensed"]
  else if q > 120 then ["High Quantity Dispensed"]
  else []

/-- Lines 178-180. -/
def warnOverlap (b : Bool) : List String :=
  if b then ["Overlapping Prescriptions Detected"] else []

/-- Lines 183-187: cash payment combined with quantity, else with dosage. -/
def warnPayment (pt : String) (q : Int) (d : ℚ) : List String :=
  if pt = "Cash" ∧ q > 90 then ["Cash Payment High Quantity"]
  else if pt = "Cash" ∧ d > 60 then ["Cash Payment High Dosage"]
  else []

/-- Lines 190-194: refill count warning bands at 6 / 4. -/
def warnRefills (n : Int) : List String :=
  if n > 6 then ["Excessive Refills"]
  else if n > 4 then ["Multiple Refills"]
  else []

/-- Lines 197-201. -/
def warnPDMP (s : String) : List String :=
  if s = "Unmatched" then ["PDMP Status Unmatched"]
  else if s = "Not Available" then ["PDMP Data Unavailable"]
  else []

/-- Lines 204-212: adherence warning bands at 50 / 60 / 98, when present. -/
def warnAdherence (a : Option ℚ) : List String :=
  match a with
  | none => []
  | some v =>
    if v < 50 then ["Very Low Adherence Score"]
    else if v < 60 then ["Low Adherence Score"]
    else if v > 98 then ["Suspiciously High Adherence"]
    else []

/-- Lines 215-219: third-party pickup combined with quantity or refills. -/
def warnPickup (pm : String) (q : Int) (n : Int) : List String :=
  if pm = "Third-party" ∧ q > 90 then ["Third-party Pickup High Quantity"]
  else if pm = "Third-party" ∧ n > 3 then ["Third-party Pickup Multiple Refills"]
  else []

/-- Lines 222-226: short supply with high quantity, else overly long supply. -/
def warnSupply (ds : Int) (q : Int) : List String :=
  if ds < 7 ∧ q > 60 then ["Short Supply High Quantity"]
  else if ds > 90 then ["Extended Supply Duration"]
  else []

/-- Lines 229-232: controlled-substance name with dosage above 80. -/
def warnDrug (name : String) (d : ℚ) : List String :=
  if (name = "Oxycodone" ∨ name = "Fentanyl" ∨ name = "Morphine" ∨
      name = "Hydrocodone" ∨ name = "Codeine") ∧ d > 80 then
    ["High-Risk Controlled Substance"]
  else []

/-- `applyEnhancedBusinessRules` (lines 145-235): the warning labels in
source push order. -/
def applyEnhancedBusinessRules (p : PatientRecord) : List String :=
  warnEarlyRefill p.Refill_Date p.Prescription_Date p.Days_Supplied ++
  warnDosage p.Dosage_mg ++
  warnQuantity p.Quantity ++
  warnOverlap p.Overlapping_Prescriptions ++
  warnPayment p.Payment_Type p.Quantity p.Dosage_mg ++
  warnRefills p.Refill_Number ++
  warnPDMP p.State_PDMP_Status ++
  warnAdherence p.Adherence_Score ++
  warnPickup p.Pickup_Method p.Quantity p.Refill_Number ++
  warnSupply p.Days_Supplied p.Quantity ++
  warnDrug p.Drug_Name p.Dosage_mg

/-! ### Tier decision and aggregation (`applyRiskScoring`, lines 237-270). -/

/-- The tier decision exactly as written in lines 248-255, with its three
branches (the second and third both assign `Medium`). -/
def riskTierCode (score : ℚ) (warningCount : Nat) : RiskLevel :=
  if score > 3/4 ∨ warningCount > 4 then RiskLevel.High
  else if score > 9/20 ∨ warningCount > 2 then RiskLevel.Medium
  else if score > 1/4 ∨ warningCount > 0 then RiskLevel.Medium
  else RiskLevel.Low

/-- Scoring of one record (loop body of `applyRiskScoring`, lines 240-266):
a fresh record carrying the input's fields plus the four derived ones. -/
def applyRiskScoringOne (rand : ℚ) (curYear : Int) (patient : PatientRecord) : PatientRecord :=
  let aiResult := simulateAdvancedAIRiskScoring rand curYear patient
  let warnings := applyEnhancedBusinessRules patient
  { patient with
    Risk_Level := riskTierCode aiResult.score warnings.length
    Risk_Score := aiResult.score
    Flagged_Warnings := warnings
    AI_Confidence := aiResult.confidence }

/-- `applyRiskScoring` over a batch; `rand i` is the value the ambient
generator returns for the `i`-th record's scoring call. -/
def applyRiskScoring (rand : Nat → ℚ) (curYear : Int) (patients : List PatientRecord) :
    List PatientRecord :=
  patients.enum.map fun pr => applyRiskScoringOne (rand pr.1) curYear pr.2

/-! ### Record parser (`processCSVData`, `src/utils/csvProcessor.ts`).

The parser works on the decoded file text.  `RawPatient` mirrors
`Partial<PatientRecord>`: every field is an `Option`, `none` standing for
the JavaScript `undefined` of a field never assigned.  The source pushes
`patient as PatientRecord` without filling missing fields, so its actual
output values are `RawPatient`s.  It also assigns a `Prescriber_DEA`
property that the `PatientRecord` interface does not declare. -/

structure RawPatient where
  Patient_ID : Option String := none
  Full_Name : Option String := none
  DOB : Option String := none
  Gender : Option String := none
  Prescriber_NPI : Option String := none
  Prescriber_DEA : Option String := none
  Prescriber_Name : Option String := none
  Pharmacy_Name : Option String := none
  Drug_Name : Option String := none
  Drug_Code : Option String := none
  Prescription_Date : Option String := none
  Dispense_Date : Option String := none
  Refill_Date : Option String := none
  Days_Supplied : Option Int := none
  Dosage_mg : Option ℚ := none
  Quantity : Option Int := none
  Refill_Number : Option Int := none
  Payment_Type : Option String := none
  Pickup_Method : Option String := none
  State_PDMP_Status : Option String := none
  Overlapping_Prescriptions : Option Bool := none
  Adherence_Score : Option ℚ := none
  Notes : Option String := none
  Risk_Level : Option RiskLevel := none
  Risk_Score : Option ℚ := none
  Flagged_Warnings : Option (List String) := none
  AI_Confidence : Option ℚ := none
deriving DecidableEq

/-- The whitespace characters stripped by `String.prototype.trim` that can
occur in this data (the full Unicode white-space set is not modelled). -/
def jsWhitespaceChar (c : Char) : Bool := c = ' ' ∨ c = '\t' ∨ c = '\n' ∨ c = '\r'

/-- `s.trim()`: strip leading and trailing whitespace. -/
def trimChars (l : List Char) : List Char :=
  ((l.dropWhile jsWhitespaceChar).reverse.dropWhile jsWhitespaceChar).reverse

/-- `s.replace(/"/g, '')`: delete every double-quote character. -/
def removeQuotes : List Char → List Char
  | [] => []
  | c :: cs => if c = '"' then removeQuotes cs else c :: removeQuotes cs

/-- The per-cell cleanup `v.trim().replace(/"/g, '')` applied to every
header and every data cell (lines 18 and 25). -/
def cellClean (l : List Char) : List Char := removeQuotes (trimChars l)

/-- `s.split(sep)` for a one-character separator: the list of segments
between occurrences of `sep`, empty segments included. -/
def splitChar (sep : Char) : List Char → List (List Char)
  | [] => [[]]
  | c :: cs =>
    match splitChar sep cs with
    | [] => [[c]]
    | seg :: rest => if c = sep then [] :: seg :: rest else (c :: seg) :: rest

/-- `parseInt(s)` (decimal form): skip leading whitespace, optional sign,
then the longest run of leading digits; `none` stands for `NaN`. -/
def jsParseInt (s : String) : Option Int :=
  let l := s.data.dropWhile jsWhitespaceChar
  let p : Int × List Char :=
    match l with
    | '-' :: rest => (-1, rest)
    | '+' :: rest => (1, rest)
    | _ => (1, l)
  let ds := p.2.takeWhile isDigit
  if ds = [] then none else some (p.1 * (digitsToNat ds : Int))

/-- `parseFloat(s)` (decimal form): skip leading whitespace, optional sign,
integer digits, optional fraction digits; `NaN` (no digits at all) is
`none`. -/
def jsParseFloat (s : String) : Option ℚ :=
  let l := s.data.dropWhile jsWhitespaceChar
  let p : ℚ × List Char :=
    match l with
    | '-' :: rest => (-1, rest)
    | '+' :: rest => (1, rest)
    | _ => (1, l)
  let ip := p.2.takeWhile isDigit
  let fp :=
    match p.2.drop ip.length with
    | '.' :: rest => rest.takeWhile isDigit
    | _ => []
  if ip = [] ∧ fp = [] then none
  else some (p.1 * ((digitsToNat ip : ℚ) + (digitsToNat fp : ℚ) / 10 ^ fp.length))

/-- The JavaScript idiom `x || undefined` on a number: `NaN` and `0` are
falsy, so they become `undefined`. -/
def jsNumOrUndefined (x : Option ℚ) : Option ℚ :=
  match x with
  | none => none
  | some q => if q = 0 then none else some q

/-- The `Adherence_Score` case arm (line 96):
`parseFloat(value) || undefined`. -/
def adherenceFromCell (v : String) : Option ℚ := jsNumOrUndefined (jsParseFloat v)

/-- `value.toLowerCase() === 'true'` (line 93), lowercasing per character. -/
def jsIsTrue (v : String) : Bool := v.data.map Char.toLower = "true".data

/-- One `case` dispatch of the `switch` on a header name (lines 31-104):
set the field named by `header` from the cell text `value`; unrecognized
headers leave the record unchanged. -/
def assignField (patient : RawPatient) (header : String) (value : String) : RawPatient :=
  if header = "Patient_ID" then { patient with Patient_ID := some value }
  else if header = "Full_Name" then { patient with Full_Name := some value }
  else if header = "DOB" then { patient with DOB := some value }
  else if header = "Gender" then { patient with Gender := some value }
  else if header = "Prescriber_NPI" then { patient with Prescriber_NPI := some value }
  else if header = "Prescriber_DEA" then { patient with Prescriber_DEA := some value }
  else if header = "Prescriber_Name" then { patient with Prescriber_Name := some value }
  else if header = "Pharmacy_Name" then { patient with Pharmacy_Name := some value }
  else if header = "Drug_Name" then { patient with Drug_Name := some value }
  else if header = "Drug_Code" then { patient with Drug_Code := some value }
  else if header = "Prescription_Date" then { patient with Prescription_Date := some value }
  else if header = "Dispense_Date" then { patient with Dispense_Date := some value }
  else if header = "Refill_Date" then
    { patient with Refill_Date := if value = "" then none else some value }
  else if header = "Days_Supplied" then
    { patient with Days_Supplied := some ((jsParseInt value).getD 0) }
  else if header = "Dosage_mg" then
    { patient with Dosage_mg := some ((jsParseFloat value).getD 0) }
  else if header = "Quantity" then
    { patient with Quantity := some ((jsParseInt value).getD 0) }
  else if header = "Refill_Number" then
    { patient with Refill_Number := some ((jsParseInt value).getD 0) }
  else if header = "Payment_Type" then { patient with Payment_Type := some value }
  else if header = "Pickup_Method" then { patient with Pickup_Method := some value }
  else if header = "State_PDMP_Status" then { patient with State_PDMP_Status := some value }
  else if header = "Overlapping_Prescriptions" then
    { patient with Overlapping_Prescriptions := some (jsIsTrue value) }
  else if header = "Adherence_Score" then
    { patient with Adherence_Score := adherenceFromCell value }
  else if header = "Notes" then
    { patient with Notes := if value = "" then none else some value }
  else patient

/-- The body of the row loop (lines 21-113) on one already-trimmed
non-empty line: split into cells, clean each cell, walk the headers with
their index reading `values[index] || ''`, then initialize the four
derived fields. -/
def parseRow (headers : List String) (lineTrimmed : List Char) : RawPatient :=
  let values := (splitChar ',' lineTrimmed).map fun v => String.mk (cellClean v)
  let patient := headers.enum.foldl
    (fun acc hi => assignField acc hi.2 (values.getD hi.1 "")) {}
  { patient with
    Risk_Level := some RiskLevel.Low
    Risk_Score := some 0
    Flagged_Warnings := some []
    AI_Confidence := some 0 }

/-- The error message of line 14. -/
def csvFormatErrorMsg : String := "CSV file must contain at least a header row and one data row"

/-- `processCSVData` on the decoded file text (lines 10-116): split on
newlines, reject when the split yields fewer than 2 segments, clean the
header cells of the first segment, and parse every later segment that is
non-empty after trimming. -/
def processCSVData (text : String) : Except String (List RawPatient) :=
  match splitChar '\n' text.data with
  | [] => Except.error csvFormatErrorMsg
  | [_] => Except.error csvFormatErrorMsg
  | headerLine :: dataLines =>
    let headers := (splitChar ',' headerLine).map fun h => String.mk (cellClean h)
    Except.ok (dataLines.filterMap fun l =>
      let line := trimChars l
      if line = [] then none else some (parseRow headers line))

/-! ### Spec-side definitions and concrete test records. -/

/-- The tier rule as the specification words it, with only two tests:
`High` iff `score > 0.75` or more than 4 warnings, else `Medium` iff
`score > 0.25` or at least one warning, else `Low`. -/
def riskTierSpec (score : ℚ) (warningCount : Nat) : RiskLevel :=
  if score > 3/4 ∨ warningCount > 4 then RiskLevel.High
  else if score > 1/4 ∨ warningCount > 0 then RiskLevel.Medium
  else RiskLevel.Low

/-- The input row of the spec's example scenario: `Dosage_mg=150,
Quantity=200, Payment_Type=Cash, Overlapping_Prescriptions=TRUE,
Refill_Number=7, State_PDMP_Status=Unmatched, Days_Supplied=30`, all
other fields default/absent. -/
def examplePatient : PatientRecord :=
  { defaultPatient with
    Dosage_mg := 150
    Quantity := 200
    Payment_Type := "Cash"
    Overlapping_Prescriptions := true
    Refill_Number := 7
    State_PDMP_Status := "Unmatched"
    Days_Supplied := 30 }

/-- A minimal record (all defaults, a 30-day supply so that no scoring
rule fires): its pre-perturbation score is exactly 0. -/
def minimalPatient : PatientRecord := { defaultPatient with Days_Supplied := 30 }

/-- A record with `days_supplied = 0`, both dates present and valid, and
the refill date five days before the prescription date. -/
def zeroDaysPatient : PatientRecord :=
  { defaultPatient with
    Prescription_Date := "2024-01-10"
    Refill_Date := some "2024-01-05"
    Days_Supplied := 0 }

/-! ### Theorems. -/

theorem riskTierCode_eq_spec (s : ℚ) (w : Nat) : riskTierCode s w = riskTierSpec s w := by
  unfold riskTierCode riskTierSpec
  split_ifs with h1 h2 h3 h4 <;> try rfl
  exfalso
  rcases h2 with h | h
  · exact h3 (Or.inl (by linarith))
  · exact h3 (Or.inr (by omega))

/-- Claim C1: for every scored record the risk tier equals `High` iff its
risk score exceeds 0.75 or its warning count exceeds 4, else `Medium` iff
its risk score exceeds 0.25 or it has any warning, else `Low` — the
code's intermediate branch at `score > 0.45` or `warnings > 2` is
behaviorally redundant, so the three-branch decision equals the
two-level spec rule on the scored record's own score and warnings. -/
theorem scored_tier_matches_two_level_rule (rand : ℚ) (curYear : Int) (p : PatientRecord) :
    (applyRiskScoringOne rand curYear p).Risk_Level =
      riskTierSpec (applyRiskScoringOne rand curYear p).Risk_Score
        (applyRiskScoringOne rand curYear p).Flagged_Warnings.length :=
  riskTierCode_eq_spec _ _

/-- Claim C2: for every input record, every current year, and every value
the ambient random generator returns, the scoring function's score lies in
`[0, 1]` and its confidence in `[0.5, 1]` after the final clamping step. -/
theorem score_and_confidence_clamped (rand : ℚ) (curYear : Int) (p : PatientRecord) :
    0 ≤ (simulateAdvancedAIRiskScoring rand curYear p).score ∧
    (simulateAdvancedAIRiskScoring rand curYear p).score ≤ 1 ∧
    1/2 ≤ (simulateAdvancedAIRiskScoring rand curYear p).confidence ∧
    (simulateAdvancedAIRiskScoring rand curYear p).confidence ≤ 1 := by
  obtain ⟨s, c, f, h⟩ :
      ∃ s c f, simulateAdvancedAIRiskScoring rand curYear p =
        { score := max 0 (min 1 s), confidence := max (1/2) (min 1 c), factors := f } :=
    ⟨_, _, _, rfl⟩
  rw [h]
  exact ⟨le_max_left _ _, max_le (by norm_num) (min_le_left _ _),
    le_max_left _ _, max_le (by norm_num) (min_le_left _ _)⟩

/-- Claim C10: scoring a record constructs a fresh record and changes only
the four derived fields: every parsed field of the scored record equals
the corresponding field of the input record (and the input itself, being a
value in this embedding, is untouched). -/
theorem scoring_changes_only_derived_fields (rand : ℚ) (curYear : Int) (p : PatientRecord) :
    (applyRiskScoringOne rand curYear p).Patient_ID = p.Patient_ID ∧
    (applyRiskScoringOne rand curYear p).Full_Name = p.Full_Name ∧
    (applyRiskScoringOne rand curYear p).DOB = p.DOB ∧
    (applyRiskScoringOne rand curYear p).Gender = p.Gender ∧
    (applyRiskScoringOne rand curYear p).Prescriber_NPI = p.Prescriber_NPI ∧
    (applyRiskScoringOne rand curYear p).Prescriber_Name = p.Prescriber_Name ∧
    (applyRiskScoringOne rand curYear p).Pharmacy_Name = p.Pharmacy_Name ∧
    (applyRiskScoringOne rand curYear p).Drug_Name = p.Drug_Name ∧
    (applyRiskScoringOne rand curYear p).Drug_Code = p.Drug_Code ∧
    (applyRiskScoringOne rand curYear p).Prescription_Date = p.Prescription_Date ∧
    (applyRiskScoringOne rand curYear p).Dispense_Date = p.Dispense_Date ∧
    (applyRiskScoringOne rand curYear p).Refill_Date = p.Refill_Date ∧
    (applyRiskScoringOne rand curYear p).Days_Supplied = p.Days_Supplied ∧
    (applyRiskScoringOne rand curYear p).Dosage_mg = p.Dosage_mg ∧
    (applyRiskScoringOne rand curYear p).Quantity = p.Quantity ∧
    (applyRiskScoringOne rand curYear p).Refill_Number = p.Refill_Number ∧
    (applyRiskScoringOne rand curYear p).Payment_Type = p.Payment_Type ∧
    (applyRiskScoringOne rand curYear p).Pickup_Method = p.Pickup_Method ∧
    (applyRiskScoringOne rand curYear p).State_PDMP_Status = p.State_PDMP_Status ∧
    (applyRiskScoringOne rand curYear p).Overlapping_Prescriptions = p.Overlapping_Prescriptions ∧
    (applyRiskScoringOne rand curYear p).Adherence_Score = p.Adherence_Score ∧
    (applyRiskScoringOne rand curYear p).Notes = p.Notes :=
  ⟨rfl, rfl, rfl, rfl, rfl, rfl, rfl, rfl, rfl, rfl, rfl, rfl, rfl, rfl, rfl, rfl, rfl, rfl,
    rfl, rfl, rfl, rfl⟩

/-- Claim C7 counterexample: for the record with `days_supplied = 0`,
both dates present and valid, and the refill date 5 days before the
prescription date, the early-refill rule is NOT skipped: the IEEE ratio
`-5 / 0 = -∞` satisfies `< 0.7`, so the rule pushes `Early Refill` and
adds 0.25 — the whole weighted score is 0.4 (supply-deviation 0.15 plus
early-refill 0.25), not the 0.15 the claim's skip would give. -/
theorem zero_days_negative_gap_fires_early_refill :
    "Early Refill" ∈ (simulateAdvancedAIRiskScoring (1/2) 2024 zeroDaysPatient).factors ∧
    (simulateAdvancedAIRiskScoring (1/2) 2024 zeroDaysPatient).score = 2/5 := by
  have hpd : jsDateDays "2024-01-10" = some 19732 := by decide
  have hrd : jsDateDays "2024-01-05" = some 19727 := by decide
  constructor
  · simp [simulateAdvancedAIRiskScoring, zeroDaysPatient, defaultPatient, dosageBlock,
      quantityBlock, supplyBlock, paymentBlock, refillCountBlock, earlyRefillBlock,
      overlapBlock, pdmpBlock, adherenceBlock, pickupBlock, drugBlock, ageBlock,
      earlyRefill, hpd, hrd]
  · simp [simulateAdvancedAIRiskScoring, zeroDaysPatient, defaultPatient, dosageBlock,
      quantityBlock, supplyBlock, paymentBlock, refillCountBlock, earlyRefillBlock,
      overlapBlock, pdmpBlock, adherenceBlock, pickupBlock, drugBlock, ageBlock,
      earlyRefill, hpd, hrd]
    norm_num [min_def, max_def]

/-- Claim C7 amended: with `days_supplied = 0` and both dates present and
valid, the early-refill rule of the weighted-score function contributes
nothing only when the refill date does not precede the prescription date
(ratio `+∞` or `NaN`); when the refill date precedes it, the ratio is
`-∞ < 0.7` and the rule contributes 0.25 with the `Early Refill` label. -/
theorem early_refill_rule_zero_days (r pd : String) (pdd rdd : Int)
    (hr : r ≠ "") (hpd : pd ≠ "") (h1 : jsDateDays pd = some pdd)
    (h2 : jsDateDays r = some rdd) :
    earlyRefillBlock (some r) pd 0 =
      if rdd - pdd < 0 then ((1/4 : ℚ), ["Early Refill"]) else (0, []) := by
  simp [earlyRefillBlock, hr, hpd, h1, h2, earlyRefill]

/-- Witness for the amended C7 theorem at the concrete date pair
2024-01-10 (prescription) / 2024-01-05 (refill). -/
theorem early_refill_rule_zero_days_check :
    earlyRefillBlock (some "2024-01-05") "2024-01-10" 0 = ((1/4 : ℚ), ["Early Refill"]) := by
  have h := early_refill_rule_zero_days "2024-01-05" "2024-01-10" 19732 19727
    (by decide) (by decide) (by decide) (by decide)
  rw [h]
  norm_num

theorem example_patient_warnings :
    applyEnhancedBusinessRules examplePatient =
      ["Extremely High Dosage", "Excessive Quantity Dispensed",
       "Overlapping Prescriptions Detected", "Cash Payment High Quantity",
       "Excessive Refills", "PDMP Status Unmatched"] := by
  simp [applyEnhancedBusinessRules, examplePatient, defaultPatient, warnEarlyRefill,
    warnDosage, warnQuantity, warnOverlap, warnPayment, warnRefills, warnPDMP,
    warnAdherence, warnPickup, warnSupply, warnDrug]
  norm_num

theorem example_patient_score (rand : ℚ) (h0 : 0 ≤ rand) (h1 : rand ≤ 1) :
    (simulateAdvancedAIRiskScoring rand 2024 examplePatient).score = 1 := by
  have hle : (1 : ℚ) ≤ 0 + 2/5 + 1 * (1/4) + 0 + 1/5 + 3/20 + 0 + 1/4 + 1/5 + 0 + 0 + 0 + 0 +
      (rand - 1/2) * (2/25) := by nlinarith
  simp [simulateAdvancedAIRiskScoring, examplePatient, defaultPatient, dosageBlock,
    quantityBlock, supplyBlock, paymentBlock, refillCountBlock, earlyRefillBlock,
    overlapBlock, pdmpBlock, adherenceBlock, pickupBlock, drugBlock, ageBlock]
  norm_num [min_def, max_def] at hle ⊢
  split_ifs <;> first | rfl | linarith

/-- Claim C5: for the spec's example row (dosage 150, quantity 200, cash,
overlap, refill number 7, PDMP unmatched, 30-day supply), for every value
of the bounded random perturbation the raw sum 1.45 stays at least 1, so
the clamped risk score is exactly 1, the tier is High, and the warnings
list has more than 4 entries including the extreme-dosage,
excessive-quantity, excessive-refills, overlap and PDMP-unmatched
labels. -/
theorem example_scenario_high_risk (rand : ℚ) (h0 : 0 ≤ rand) (h1 : rand ≤ 1) :
    (applyRiskScoringOne rand 2024 examplePatient).Risk_Score = 1 ∧
    (applyRiskScoringOne rand 2024 examplePatient).Risk_Level = RiskLevel.High ∧
    4 < (applyRiskScoringOne rand 2024 examplePatient).Flagged_Warnings.length ∧
    "Extremely High Dosage" ∈ (applyRiskScoringOne rand 2024 examplePatient).Flagged_Warnings ∧
    "Excessive Quantity Dispensed" ∈
      (applyRiskScoringOne rand 2024 examplePatient).Flagged_Warnings ∧
    "Excessive Refills" ∈ (applyRiskScoringOne rand 2024 examplePatient).Flagged_Warnings ∧
    "Overlapping Prescriptions Detected" ∈
      (applyRiskScoringOne rand 2024 examplePatient).Flagged_Warnings ∧
    "PDMP Status Unmatched" ∈
      (applyRiskScoringOne rand 2024 examplePatient).Flagged_Warnings := by
  have hsc := example_patient_score rand h0 h1
  have hwn := example_patient_warnings
  have hRS : (applyRiskScoringOne rand 2024 examplePatient).Risk_Score =
      (simulateAdvancedAIRiskScoring rand 2024 examplePatient).score := rfl
  have hFW : (applyRiskScoringOne rand 2024 examplePatient).Flagged_Warnings =
      applyEnhancedBusinessRules examplePatient := rfl
  have hRL : (applyRiskScoringOne rand 2024 examplePatient).Risk_Level =
      riskTierCode (simulateAdvancedAIRiskScoring rand 2024 examplePatient).score
        (applyEnhancedBusinessRules examplePatient).length := rfl
  rw [hRS, hFW, hRL, hsc, hwn]
  refine ⟨rfl, ?_, by norm_num, by simp, by simp, by simp, by simp, by simp⟩
  simp [riskTierCode]

/-- Witness for C5 at the concrete perturbation draw `rand = 1/2`
(perturbation exactly 0). -/
theorem example_scenario_high_risk_check :
    (applyRiskScoringOne (1/2) 2024 examplePatient).Risk_Score = 1 ∧
    (applyRiskScoringOne (1/2) 2024 examplePatient).Risk_Level = RiskLevel.High := by
  have h := example_scenario_high_risk (1/2) (by norm_num) (by norm_num)
  exact ⟨h.1, h.2.1⟩

/-- Claim C6: the score-smoothing perturbation is drawn from the ambient
global `Math.random()` — the scoring function takes no seed, so the draw is
modelled here as the explicit `rand` argument.  Two admissible draws of the
ambient generator (0 and 0.9) give the same minimal record different
scores (0 and 4/125), so without a parameterized seed the engine's output
is not reproducible, contradicting the required seeded determinism. -/
theorem same_record_different_ambient_draws_differ :
    (simulateAdvancedAIRiskScoring 0 2024 minimalPatient).score = 0 ∧
    (simulateAdvancedAIRiskScoring (9/10) 2024 minimalPatient).score = 4/125 ∧
    (simulateAdvancedAIRiskScoring 0 2024 minimalPatient).score ≠
      (simulateAdvancedAIRiskScoring (9/10) 2024 minimalPatient).score := by
  have e1 : (simulateAdvancedAIRiskScoring 0 2024 minimalPatient).score = 0 := by
    simp [simulateAdvancedAIRiskScoring, minimalPatient, defaultPatient, dosageBlock,
      quantityBlock, supplyBlock, paymentBlock, refillCountBlock, earlyRefillBlock,
      overlapBlock, pdmpBlock, adherenceBlock, pickupBlock, drugBlock, ageBlock]
    norm_num [min_def, max_def]
  have e2 : (simulateAdvancedAIRiskScoring (9/10) 2024 minimalPatient).score = 4/125 := by
    simp [simulateAdvancedAIRiskScoring, minimalPatient, defaultPatient, dosageBlock,
      quantityBlock, supplyBlock, paymentBlock, refillCountBlock, earlyRefillBlock,
      overlapBlock, pdmpBlock, adherenceBlock, pickupBlock, drugBlock, ageBlock]
    norm_num [min_def, max_def]
  refine ⟨e1, e2, ?_⟩
  rw [e1, e2]
  norm_num

theorem splitChar_ne_nil (sep : Char) (l : List Char) : splitChar sep l ≠ [] := by
  cases l with
  | nil => simp [splitChar]
  | cons c cs =>
    rcases h : splitChar sep cs with _ | ⟨seg, rest⟩
    · simp [splitChar, h]
    · simp only [splitChar, h]
      split <;> simp

theorem splitChar_length (sep : Char) (l : List Char) :
    (splitChar sep l).length = l.count sep + 1 := by
  induction l with
  | nil => rfl
  | cons c cs ih =>
    rcases h : splitChar sep cs with _ | ⟨seg, rest⟩
    · exact absurd h (splitChar_ne_nil sep cs)
    · rw [h] at ih
      simp only [List.length_cons] at ih
      by_cases hc : c = sep
      · simp [splitChar, h, hc, List.count_cons]
        omega
      · simp [splitChar, h, hc, List.count_cons]
        omega

/-- Claim C3 counterexample: the input consisting of one header line
followed by a single newline has exactly one non-empty line, yet the
parser accepts it (with an empty record list) instead of rejecting it —
the length check counts raw newline-split segments, including the empty
trailing one. -/
theorem header_line_plus_newline_accepted :
    processCSVData "Patient_ID\n" = Except.ok [] ∧
    ((splitChar '\n' "Patient_ID\n".data).filter (fun l => l ≠ [])).length = 1 :=
  ⟨rfl, rfl⟩

/-- Claim C3 amended: the parser fails with the format error exactly when
the input text contains no newline character at all (so that splitting on
newlines yields a single segment); a header line followed by a newline or
blank lines splits into 2 or more segments and is accepted, yielding zero
records. -/
theorem csv_rejected_iff_no_newline (text : String) :
    processCSVData text = Except.error csvFormatErrorMsg ↔ text.data.count '\n' = 0 := by
  have hlen := splitChar_length '\n' text.data
  unfold processCSVData
  rcases hs : splitChar '\n' text.data with _ | ⟨a, _ | ⟨b, t⟩⟩
  · exact absurd hs (splitChar_ne_nil _ _)
  · rw [hs] at hlen
    simp at hlen
    simp [hlen]
  · rw [hs] at hlen
    simp at hlen
    simp
    omega

/-- Claim C4: for the input whose header row names only `Patient_ID`, the
single parsed record has every other field still absent (`undefined`),
not at its default/empty value — the `Partial` record is pushed through
the unchecked `as PatientRecord` cast without filling `Full_Name` with
`""`, `Days_Supplied` or `Dosage_mg` with `0`, or the overlap flag with
`false`, violating the non-optional typing the interface declares. -/
theorem missing_header_leaves_fields_undefined :
    ∃ r, processCSVData "Patient_ID\np1" = Except.ok [r] ∧
      r.Patient_ID = some "p1" ∧
      r.Full_Name = none ∧
      r.Days_Supplied = none ∧
      r.Dosage_mg = none ∧
      r.Quantity = none ∧
      r.Overlapping_Prescriptions = none :=
  ⟨_, rfl, rfl, rfl, rfl, rfl, rfl, rfl⟩

theorem removeQuotes_eq_filter (l : List Char) :
    removeQuotes l = l.filter (fun c => c ≠ '"') := by
  induction l with
  | nil => rfl
  | cons c cs ih =>
    by_cases h : c = '"' <;> simp [removeQuotes, h, ih, List.filter_cons]

/-- Claim C8 counterexample: a cell whose value is `a"b` (a double quote
interior to the value, no enclosing quotes to strip) parses to the field
value `ab` — the interior quote is removed, not preserved. -/
theorem interior_quote_removed :
    ∃ r, processCSVData "Notes\na\"b" = Except.ok [r] ∧ r.Notes = some "ab" ∧
      "ab" ≠ "a\"b" :=
  ⟨_, rfl, rfl, by decide⟩

/-- Claim C8 amended: the per-cell cleanup removes the surrounding
whitespace and then every double-quote character of the cell, wherever it
occurs — not just one enclosing layer — so no parsed field value ever
contains a double quote. -/
theorem cell_cleanup_removes_every_quote (cell : List Char) :
    cellClean cell = (trimChars cell).filter (fun c => c ≠ '"') ∧
    '"' ∉ cellClean cell := by
  refine ⟨removeQuotes_eq_filter _, ?_⟩
  rw [cellClean, removeQuotes_eq_filter]
  simp

theorem jsParseFloat_zero_cell : jsParseFloat "0" = some 0 := by
  have hd : "0".data = ['0'] := rfl
  have hw : jsWhitespaceChar '0' = false := by decide
  have hg : isDigit '0' = true := by decide
  have hv : digitVal '0' = 0 := by decide
  simp [jsParseFloat, hd, hw, hg, hv, digitsToNat, List.dropWhile, List.takeWhile, List.drop]

/-- Claim C9 counterexample: the cell text `0` is parsable numeric text
(`parseFloat` returns 0), yet the parsed record's `adherence_score` is
absent — `parseFloat(value) || undefined` treats the falsy value 0 as
missing. -/
theorem adherence_zero_cell_absent :
    jsParseFloat "0" = some 0 ∧
    ∃ r, processCSVData "Adherence_Score\n0" = Except.ok [r] ∧
      r.Adherence_Score = none := by
  refine ⟨jsParseFloat_zero_cell, ?_⟩
  refine ⟨_, rfl, ?_⟩
  show adherenceFromCell "0" = none
  rw [adherenceFromCell, jsParseFloat_zero_cell]
  simp [jsNumOrUndefined]

/-- Claim C9 amended: the parsed `adherence_score` is present with value
`q` exactly when the cell parses as the number `q` and `q ≠ 0`; it is
absent when the cell is missing, unparsable, or parses to 0 (the `||
undefined` idiom maps the falsy result 0 to absent as well). -/
theorem adherence_present_iff_parses_nonzero (v : String) (q : ℚ) :
    adherenceFromCell v = some q ↔ jsParseFloat v = some q ∧ q ≠ 0 := by
  unfold adherenceFromCell jsNumOrUndefined
  rcases h : jsParseFloat v with _ | x
  · simp
  · by_cases hx : x = 0
    · simp [hx, h]
      exact fun he => he.symm
    · simp [hx, h]
      exact fun he => he ▸ hx
